import Mathlib

/-!
Verification development for the knowledge-graph-embedding runner.

Shallow embedding of the two source files:

* `src/executer.py` — the filtered link-prediction evaluator
  (`Execute.evaluate_lp`, `Execute.evaluate_lp_k_vs_all`,
  `Execute.config_kge_sanity_checking`);
* `src/dicee/trainer/torch_trainer_ddp.py` — the distributed
  training coordinator (`TorchDDPTrainer.fit`, `distributed_training`,
  `DDPTrainer`).

Machine floats are modelled by `ℚ`; `float('-inf')` (`-np.Inf`) by `⊥` of
`WithBot ℚ`.  The model's scoring functions (torch modules) are external
numeric collaborators and appear as abstract function fields.
-/

namespace KGE

/-- A knowledge-graph triple of dense integer ids, unpacked in the source as
`e1_idx, r_idx, e2_idx = tuple(i)` resp. `s, p, o = data_point[0..2]`. -/
structure Triple where
  s : ℕ
  p : ℕ
  o : ℕ
deriving DecidableEq, Repr

/-- The indexed train+valid+test table returned by
`Execute.deserialize_index_data` (a pandas frame with columns
subject/relation/object), modelled as a list of triples. -/
abbrev KnownTable := List Triple

/-- `data[(data['subject'] == s) & (data['relation'] == p)]['object'].values`
(executer.py line 415, and line 352 of the KvsAll entity branch). -/
def filt_tails (data : KnownTable) (s p : ℕ) : List ℕ :=
  (data.filter (fun t => t.s == s && t.p == p)).map Triple.o

/-- `data[(data['relation'] == p) & (data['object'] == o)]['subject'].values`
(executer.py line 427). -/
def filt_heads (data : KnownTable) (p o : ℕ) : List ℕ :=
  (data.filter (fun t => t.p == p && t.o == o)).map Triple.s

/-- `data[(data['subject'] == s) & (data['object'] == o)]['relation'].values`
(executer.py line 314, relation-prediction branch). -/
def filt_rels (data : KnownTable) (s o : ℕ) : List ℕ :=
  (data.filter (fun t => t.s == s && t.o == o)).map Triple.p

/-- Abstract trained model over vocabularies of `numEnt` entities and
`numRel` relations.  The scoring functions themselves are out of scope
(external collaborators), so they are opaque function fields:
`forward_triples s p o` is the raw score of a single triple;
`forward_k_vs_all_ent s p` is the score vector over all candidate objects for
the pair `(s, p)`; `forward_k_vs_all_rel s o` is the score vector over all
candidate relations for the pair `(s, o)`. -/
structure Model (numEnt numRel : ℕ) where
  forward_triples : ℕ → ℕ → ℕ → ℚ
  forward_k_vs_all_ent : ℕ → ℕ → Fin numEnt → ℚ
  forward_k_vs_all_rel : ℕ → ℕ → Fin numRel → ℚ

/-- The filtering step applied to a score vector before ranking, e.g.
executer.py lines 417–419:

    target_value = predictions[t].item()
    predictions[filt] = -np.Inf
    predictions[t] = target_value

In-place mutation is modelled as the pure score vector it produces: the
target keeps its raw score (saved before masking and written back after),
every other index occurring in `filt` is `-inf` (`⊥`), and all remaining
indices keep their raw scores. -/
def maskedScores {n : ℕ} (predictions : Fin n → ℚ) (filt : List ℕ) (t : Fin n) :
    Fin n → WithBot ℚ :=
  fun e =>
    if e = t then (predictions t : WithBot ℚ)
    else if (e : ℕ) ∈ filt then ⊥
    else (predictions e : WithBot ℚ)

/-- `_, sort_idxs = torch.sort(predictions, descending=True)`: the candidate
indices in descending score order.  Tie order is implementation-defined in
the source (torch.sort without `stable=True`); the embedding fixes the
stable insertion sort as the concrete choice. -/
def sort_idxs {n : ℕ} (scores : Fin n → WithBot ℚ) : List (Fin n) :=
  List.insertionSort (fun a b => scores b ≤ scores a) (List.finRange n)

/-- `np.where(sort_idxs == t)[0][0]`: the 0-based position of the target in
the descending sort (the value the source calls `rank` before adding 1). -/
def rank0_of {n : ℕ} (scores : Fin n → WithBot ℚ) (t : Fin n) : ℕ :=
  (sort_idxs scores).indexOf t

/-- The 1-based filtered rank (`rank + 1`, executer.py lines 322/360/438–439). -/
def rank_of {n : ℕ} (scores : Fin n → WithBot ℚ) (t : Fin n) : ℕ :=
  rank0_of scores t + 1

/-- `model.forward_triples(e1_idx=s.repeat(n), rel_idx=p.repeat(n),
e2_idx=arange(n))` (executer.py lines 403–405): tail-prediction score vector. -/
def predictions_tails {nE nR : ℕ} (m : Model nE nR) (s p : ℕ) : Fin nE → ℚ :=
  fun e => m.forward_triples s p (e : ℕ)

/-- `model.forward_triples(e1_idx=arange(n), rel_idx=p.repeat(n),
e2_idx=o.repeat(n))` (executer.py lines 407–409): head-prediction score vector. -/
def predictions_heads {nE nR : ℕ} (m : Model nE nR) (p o : ℕ) : Fin nE → ℚ :=
  fun e => m.forward_triples (e : ℕ) p o

/-- `filt_tail_entity_rank` of executer.py lines 413–423 plus the `+= 1` of
line 439, as a function of the query ids.  An out-of-vocabulary target would
raise `IndexError` in the source; the embedding returns the junk value 0
there, and every claim about ranks carries the in-vocabulary hypothesis. -/
def filt_tail_entity_rank {nE nR : ℕ} (m : Model nE nR) (data : KnownTable)
    (s p o : ℕ) : ℕ :=
  if h : o < nE then
    rank_of (maskedScores (predictions_tails m s p) (filt_tails data s p) ⟨o, h⟩) ⟨o, h⟩
  else 0

/-- `filt_head_entity_rank` of executer.py lines 425–435 plus the `+= 1` of
line 438. -/
def filt_head_entity_rank {nE nR : ℕ} (m : Model nE nR) (data : KnownTable)
    (s p o : ℕ) : ℕ :=
  if h : s < nE then
    rank_of (maskedScores (predictions_heads m p o) (filt_heads data p o) ⟨s, h⟩) ⟨s, h⟩
  else 0

/-- The per-triple `(head_rank, tail_rank)` pairs computed by the main loop
of `evaluate_lp` (lines 394–439). -/
def lp_ranks {nE nR : ℕ} (m : Model nE nR) (data : KnownTable)
    (triple_idx : List Triple) : List (ℕ × ℕ) :=
  triple_idx.map (fun t =>
    (filt_head_entity_rank m data t.s t.p t.o, filt_tail_entity_rank m data t.s t.p t.o))

/-- The increment `I` appended for one triple at level `K`
(executer.py lines 444–446): 1 for the head rank if `≤ K`, plus 1 for the
tail rank if `≤ K`. -/
def hits_entry (hr tr K : ℕ) : ℕ :=
  (if hr ≤ K then 1 else 0) + (if tr ≤ K then 1 else 0)

/-- `hits[K]`: the dict entry at level `K` collects the per-triple increments
`I` that are strictly positive (`if I > 0: hits.setdefault(K, []).append(I)`,
lines 447–448); triples with `I = 0` leave no entry. -/
def hits_list (ranks : List (ℕ × ℕ)) (K : ℕ) : List ℕ :=
  (ranks.map (fun pr => hits_entry pr.1 pr.2 K)).filter (fun I => decide (0 < I))

/-- `hit_K = sum(hits[K]) / float(len(triple_idx) * 2)` when level `K` is
present in the dict, else the literal `0` (executer.py lines 452–465). -/
def hit_at (ranks : List (ℕ × ℕ)) (K : ℕ) (count : ℕ) : ℚ :=
  if hits_list ranks K = [] then 0
  else ((hits_list ranks K).sum : ℚ) / ((count : ℚ) * 2)

/-- The result mapping `{'H@1': .., 'H@3': .., 'H@10': .., 'MRR': ..}`. -/
structure Metrics where
  h1 : ℚ
  h3 : ℚ
  h10 : ℚ
  mrr : ℚ
deriving DecidableEq, Repr

/-- `Execute.evaluate_lp` (executer.py lines 374–470): filtered
link-prediction evaluation with one head rank and one tail rank per triple.
`reciprocal_ranks` collects `1/head_rank + 1/tail_rank` (line 441); MRR
divides their sum by `len(triple_idx) * 2` (line 450). -/
def evaluate_lp {nE nR : ℕ} (m : Model nE nR) (data : KnownTable)
    (triple_idx : List Triple) : Metrics :=
  let ranks := lp_ranks m data triple_idx
  let reciprocal_ranks := ranks.map (fun pr => (1 : ℚ) / (pr.1 : ℚ) + (1 : ℚ) / (pr.2 : ℚ))
  { h1 := hit_at ranks 1 triple_idx.length
    h3 := hit_at ranks 3 triple_idx.length
    h10 := hit_at ranks 10 triple_idx.length
    mrr := reciprocal_ranks.sum / (((triple_idx.length : ℚ)) * 2) }

/-- The 0-based rank of one triple in the KvsAll entity branch
(executer.py lines 349–359): score vector `forward_k_vs_all(e1, rel)[0]`,
filter from the `(subject, relation)` key, target `e2`. -/
def kvsall_rank0_ent {nE nR : ℕ} (m : Model nE nR) (data : KnownTable)
    (t : Triple) : ℕ :=
  if h : t.o < nE then
    rank0_of (maskedScores (m.forward_k_vs_all_ent t.s t.p) (filt_tails data t.s t.p) ⟨t.o, h⟩)
      ⟨t.o, h⟩
  else 0

/-- The 0-based rank of one triple in the KvsAll relation-prediction branch
(executer.py lines 310–321): score vector `forward_k_vs_all(e1, e2)[0]`,
filter from the `(subject, object)` key, target `r`. -/
def kvsall_rank0_rel {nE nR : ℕ} (m : Model nE nR) (data : KnownTable)
    (t : Triple) : ℕ :=
  if h : t.p < nR then
    rank0_of (maskedScores (m.forward_k_vs_all_rel t.s t.o) (filt_rels data t.s t.o) ⟨t.p, h⟩)
      ⟨t.p, h⟩
  else 0

/-- The list `ranks` (0-based) produced by the branch dispatch on
`form_of_labelling == 'RelationPrediction'` (executer.py lines 309/348). -/
def kvsall_ranks0 {nE nR : ℕ} (m : Model nE nR) (data : KnownTable)
    (triple_idx : List Triple) (form_of_labelling : String) : List ℕ :=
  if form_of_labelling = "RelationPrediction" then
    triple_idx.map (kvsall_rank0_rel m data)
  else
    triple_idx.map (kvsall_rank0_ent m data)

/-- `Execute.evaluate_lp_k_vs_all` (executer.py lines 289–372).  `hits[L]`
appends `1.0` whenever the 0-based rank is `≤ L`, so `sum(hits[L])` is the
number of triples with 0-based rank `≤ L`; `hit_1`, `hit_3`, `hit_10` read
levels 0, 2, 9 and divide by `len(triple_idx)`; MRR is
`np.mean(1. / np.array(ranks))` over the 1-based ranks. -/
def evaluate_lp_k_vs_all {nE nR : ℕ} (m : Model nE nR) (data : KnownTable)
    (triple_idx : List Triple) (form_of_labelling : String) : Metrics :=
  let ranks0 := kvsall_ranks0 m data triple_idx form_of_labelling
  { h1 := ((ranks0.countP (fun r => decide (r ≤ 0))) : ℚ) / ((triple_idx.length : ℚ))
    h3 := ((ranks0.countP (fun r => decide (r ≤ 2))) : ℚ) / ((triple_idx.length : ℚ))
    h10 := ((ranks0.countP (fun r => decide (r ≤ 9))) : ℚ) / ((triple_idx.length : ℚ))
    mrr := (ranks0.map (fun (r : ℕ) => (1 : ℚ) / ((r : ℚ) + 1))).sum / ((ranks0.length : ℚ)) }

/-- The slice of the run configuration touched by
`Execute.config_kge_sanity_checking`. -/
structure Config where
  batch_size : ℕ
  model : String
  scoring_technique : String
  neg_ratio : Option ℕ
deriving DecidableEq, Repr

/-- `Execute.config_kge_sanity_checking` (executer.py lines 62–75): clamp
`batch_size` to the training-set size when it exceeds it, force `KvsAll` for
the Shallom model, and drop the negative-sampling ratio under `KvsAll`.
The method returns normally on every input — no branch raises. -/
def config_kge_sanity_checking (train_set_len : ℕ) (c : Config) : Config :=
  let c1 := if c.batch_size > train_set_len then { c with batch_size := train_set_len } else c
  let c2 :=
    if c1.model = "Shallom" ∧ c1.scoring_technique = "NegSample" then
      { c1 with scoring_technique := "KvsAll" }
    else c1
  if c2.scoring_technique = "KvsAll" then { c2 with neg_ratio := none } else c2

end KGE

namespace DDP

/-- The torch module state visible to the trainer: its parameter `state_dict`
(abstracted to a vector of rationals) and the mutable `loss_history`
attribute that `DDPTrainer.train` appends to.  `state_dict()`/
`load_state_dict()` carry only the parameters, never plain Python
attributes such as `loss_history`. -/
structure Module where
  state_dict : List ℚ
  loss_history : List ℚ
deriving DecidableEq, Repr

/-- Contents of the working directory as far as the trainer touches it:
`model_pt` is the payload of the file `model.pt` when it exists. -/
structure FS where
  model_pt : Option (List ℚ)
deriving DecidableEq, Repr

section Trainer

variable {β : Type}

/-- Abstract numeric effect of one `DDPTrainer._run_batch` call
(lines 114–126): forward pass, loss, backward with gradient all-reduce, and
optimizer step are external torch collaborators; what the bookkeeping sees is
the scalar `loss.item()` and the updated parameter vector, as a function of
the current parameters and the mini-batch. -/
def RunBatch (β : Type) := List ℚ → β → ℚ × List ℚ

/-- The batch loop body of `_run_epoch` (lines 146–152): thread the parameter
vector through the batches, accumulating `epoch_loss += batch_loss`.
Returns `(epoch_loss, final parameters)`. -/
def run_batches (run_batch : RunBatch β) : List ℚ → List β → ℚ × List ℚ
  | params, [] => (0, params)
  | params, b :: bs =>
    let r := run_batch params b
    let rest := run_batches run_batch r.2 bs
    (r.1 + rest.1, rest.2)

/-- The sequence of local batch losses a worker observes during one epoch
(the successive values of `batch_loss` in the loop of `_run_epoch`). -/
def epoch_batch_losses (run_batch : RunBatch β) : List ℚ → List β → List ℚ
  | _, [] => []
  | params, b :: bs =>
    let r := run_batch params b
    r.1 :: epoch_batch_losses run_batch r.2 bs

/-- `DDPTrainer._run_epoch` (lines 141–161): run all batches and return
`epoch_loss / (i + 1)` together with the updated parameters.  `i` is
initialised to 0 and holds the last batch index after the loop, so the
divisor is `max 1 (number of batches)`. -/
def run_epoch (run_batch : RunBatch β) (params : List ℚ) (batches : List β) :
    ℚ × List ℚ :=
  let r := run_batches run_batch params batches
  (r.1 / ((max 1 batches.length : ℕ) : ℚ), r.2)

/-- One callback-invocation record: `(epoch, callback index, model passed)`.
Line 171 passes `self.model.module` — the unwrapped module — so the record
holds a `Module`, not the DDP wrapper. -/
abbrev CallbackCall := ℕ × ℕ × Module

/-- The epoch loop of `DDPTrainer.train` (lines 163–171), recursing on the
number of remaining epochs with `e` the current epoch index.  Every rank runs
the epoch (parameters advance on all ranks); only `gpu_id == 0` appends
`epoch_loss` to `self.model.module.loss_history` and then invokes each of the
`ncb` registered callbacks with the unwrapped module.  The loader is
re-partitioned per epoch via `sampler.set_epoch(epoch)`, hence `loader`
depends on the epoch index. -/
def train_epochs (gpu_id ncb : ℕ) (run_batch : RunBatch β) (loader : ℕ → List β) :
    ℕ → ℕ → Module → Module × List CallbackCall
  | 0, _, m => (m, [])
  | k + 1, e, m =>
    let r := run_epoch run_batch m.state_dict (loader e)
    let m1 : Module :=
      { state_dict := r.2
        loss_history := if gpu_id = 0 then m.loss_history ++ [r.1] else m.loss_history }
    let calls : List CallbackCall :=
      if gpu_id = 0 then (List.range ncb).map (fun c => (e, c, m1)) else []
    let rest := train_epochs gpu_id ncb run_batch loader k (e + 1) m1
    (rest.1, calls ++ rest.2)

/-- `DDPTrainer.train` for `num_epochs` epochs starting at epoch 0.  Returns
the final module state and the record of callback invocations. -/
def DDPTrainer_train (gpu_id ncb : ℕ) (run_batch : RunBatch β) (loader : ℕ → List β)
    (num_epochs : ℕ) (m0 : Module) : Module × List CallbackCall :=
  train_epochs gpu_id ncb run_batch loader num_epochs 0 m0

/-- The per-epoch mean-loss sequence a worker produces over `k` epochs
starting at epoch `e` from parameter vector `params` (the successive values
of `epoch_loss` returned by `_run_epoch`). -/
def epoch_mean_losses (run_batch : RunBatch β) (loader : ℕ → List β) :
    ℕ → ℕ → List ℚ → List ℚ
  | 0, _, _ => []
  | k + 1, e, params =>
    let r := run_epoch run_batch params (loader e)
    r.1 :: epoch_mean_losses run_batch loader k (e + 1) r.2

/-- `distributed_training` (lines 63–90) as seen from the file system: it
runs in a spawned child process on a pickled copy of `model`, so every
mutation of the model or the trainer stays in the child.  After training,
rank 0 assigns `trainer.loss_history` (the never-appended empty list from
`DDPTrainer.__init__`) onto the DDP wrapper attribute and then writes
`trainer.model.module.state_dict()` to the file `model.pt`; other ranks leave
the file system untouched. -/
def distributed_training (rank : ℕ) (model : Module) (ncb : ℕ)
    (run_batch : RunBatch β) (loader : ℕ → ℕ → List β) (num_epochs : ℕ)
    (fs : FS) : FS :=
  let r := DDPTrainer_train rank ncb run_batch (loader rank) num_epochs model
  if rank = 0 then { model_pt := some r.1.state_dict } else fs

/-- `TorchDDPTrainer.fit` (lines 48–61): `mp.spawn` runs
`distributed_training` for every rank in `[0, world_size)` on copies of the
caller's model, joins them, then the parent loads `model.pt` into the
original model object (`load_state_dict` replaces the parameters only) and
deletes the file.  A missing checkpoint would make `torch.load` raise
`FileNotFoundError`, modelled as the error branch. -/
def fit (model : Module) (world_size ncb : ℕ) (run_batch : RunBatch β)
    (loader : ℕ → ℕ → List β) (num_epochs : ℕ) (fs : FS) :
    Except String (Module × FS) :=
  let fs1 := (List.range world_size).foldl
    (fun f r => distributed_training r model ncb run_batch loader num_epochs f) fs
  match fs1.model_pt with
  | some sd => .ok ({ model with state_dict := sd }, { model_pt := none })
  | none => .error "FileNotFoundError"

end Trainer

/-- Python error kinds distinguished by `DDPTrainer.extract_input_outputs`. -/
inductive PyError where
  | nameError
  | valueError
deriving DecidableEq, Repr

/-- `DDPTrainer.extract_input_outputs` (lines 128–139).  Batch elements are
abstract tensors `α`; `.to(self.gpu_id)` is the abstract device move
`toDev`.  A two-element batch returns `(x.to(d), y.to(d))`; a three-element
batch returns `((x.to(d), y_idx.to(d)), y.to(d))`, so the first component is
either a bare tensor or a pair.  On any other length the `else` branch first
evaluates `print(len(batch))`, but no name `batch` is bound in that scope
(the parameter is `z`), so Python raises `NameError` there and the
`raise ValueError('Unexpected batch shape..')` on the next line is
unreachable. -/
def extract_input_outputs {α : Type} (toDev : α → α) :
    List α → Except PyError ((α ⊕ α × α) × α)
  | [x, y] => .ok (.inl (toDev x), toDev y)
  | [x, yidx, y] => .ok (.inr (toDev x, toDev yidx), toDev y)
  | _ => .error .nameError

end DDP

namespace KGE

theorem sort_idxs_perm {n : ℕ} (scores : Fin n → WithBot ℚ) :
    List.Perm (sort_idxs scores) (List.finRange n) :=
  List.perm_insertionSort _ _

theorem mem_sort_idxs {n : ℕ} (scores : Fin n → WithBot ℚ) (t : Fin n) :
    t ∈ sort_idxs scores :=
  (sort_idxs_perm scores).mem_iff.mpr (List.mem_finRange t)

theorem length_sort_idxs {n : ℕ} (scores : Fin n → WithBot ℚ) :
    (sort_idxs scores).length = n := by
  rw [(sort_idxs_perm scores).length_eq, List.length_finRange]

theorem sorted_sort_idxs {n : ℕ} (scores : Fin n → WithBot ℚ) :
    (sort_idxs scores).Sorted (fun a b => scores b ≤ scores a) := by
  have ht : IsTotal (Fin n) (fun a b => scores b ≤ scores a) := ⟨fun a b => le_total _ _⟩
  have htr : IsTrans (Fin n) (fun a b => scores b ≤ scores a) :=
    ⟨fun _ _ _ h1 h2 => le_trans h2 h1⟩
  exact List.sorted_insertionSort _ _

theorem rank0_of_lt {n : ℕ} (scores : Fin n → WithBot ℚ) (t : Fin n) :
    rank0_of scores t < n := by
  have h1 := List.indexOf_lt_length.mpr (mem_sort_idxs scores t)
  rw [length_sort_idxs] at h1
  exact h1

theorem rank_of_pos {n : ℕ} (scores : Fin n → WithBot ℚ) (t : Fin n) :
    1 ≤ rank_of scores t := by
  simp [rank_of]

theorem rank_of_le {n : ℕ} (scores : Fin n → WithBot ℚ) (t : Fin n) :
    rank_of scores t ≤ n := by
  have := rank0_of_lt scores t
  simp only [rank_of]
  omega

/-- If the target's score is strictly above every other candidate's score,
the target heads the descending sort and its 1-based rank is 1, whatever the
tie-breaking order does among the remaining candidates. -/
theorem rank_of_eq_one {n : ℕ} (scores : Fin n → WithBot ℚ) (t : Fin n)
    (hmax : ∀ e : Fin n, e ≠ t → scores e < scores t) :
    rank_of scores t = 1 := by
  have hmem : t ∈ sort_idxs scores := mem_sort_idxs scores t
  rcases hS : sort_idxs scores with _ | ⟨h, rest⟩
  · rw [hS] at hmem; cases hmem
  · have hsorted := sorted_sort_idxs scores
    rw [hS] at hsorted hmem
    rcases List.sorted_cons.mp hsorted with ⟨hhead, _⟩
    have hht : h = t := by
      by_contra hne
      have htr : t ∈ rest := by
        rcases List.mem_cons.mp hmem with h1 | h1
        · exact absurd h1.symm hne
        · exact h1
      have hle : scores t ≤ scores h := hhead t htr
      have hlt : scores h < scores t := hmax h hne
      exact absurd hle (not_le.mpr hlt)
    subst hht
    simp [rank_of, rank0_of, hS]

theorem maskedScores_target {n : ℕ} (predictions : Fin n → ℚ) (filt : List ℕ)
    (t : Fin n) : maskedScores predictions filt t t = (predictions t : WithBot ℚ) := by
  simp [maskedScores]

theorem maskedScores_filtered {n : ℕ} (predictions : Fin n → ℚ) (filt : List ℕ)
    (t e : Fin n) (hne : e ≠ t) (hmem : (e : ℕ) ∈ filt) :
    maskedScores predictions filt t e = ⊥ := by
  simp [maskedScores, hne, hmem]

theorem maskedScores_other {n : ℕ} (predictions : Fin n → ℚ) (filt : List ℕ)
    (t e : Fin n) (hne : e ≠ t) (hmem : (e : ℕ) ∉ filt) :
    maskedScores predictions filt t e = (predictions e : WithBot ℚ) := by
  simp [maskedScores, hne, hmem]

/-- If the target's raw score is strictly maximal among the candidates that
are not filtered out, masking makes it strictly maximal overall. -/
theorem maskedScores_strict_max {n : ℕ} (predictions : Fin n → ℚ) (filt : List ℕ)
    (t : Fin n)
    (hmax : ∀ e : Fin n, e ≠ t → (e : ℕ) ∉ filt → predictions e < predictions t) :
    ∀ e : Fin n, e ≠ t →
      maskedScores predictions filt t e < maskedScores predictions filt t t := by
  intro e hne
  rw [maskedScores_target]
  by_cases hm : (e : ℕ) ∈ filt
  · rw [maskedScores_filtered predictions filt t e hne hm]
    exact WithBot.bot_lt_coe _
  · rw [maskedScores_other predictions filt t e hne hm]
    exact_mod_cast hmax e hne hm

theorem sum_filter_pos (l : List ℕ) :
    ((l.filter (fun I => decide (0 < I))).sum) = l.sum := by
  induction l with
  | nil => rfl
  | cons a l ih =>
    by_cases ha : 0 < a
    · simp [List.filter_cons, ha, ih]
    · have ha0 : a = 0 := by omega
      simp [List.filter_cons, ha0, ih]

/-- The dict-based Hits accumulation of `evaluate_lp` equals the plain
two-sided tally divided by `2 × count`: dropping the zero increments does not
change the sum, and an absent dict key means the sum is zero anyway. -/
theorem hit_at_eq (ranks : List (ℕ × ℕ)) (K count : ℕ) :
    hit_at ranks K count =
      (((ranks.map (fun pr => hits_entry pr.1 pr.2 K)).sum : ℕ) : ℚ) / ((count : ℚ) * 2) := by
  unfold hit_at hits_list
  by_cases hempty :
      (ranks.map (fun pr => hits_entry pr.1 pr.2 K)).filter (fun I => decide (0 < I)) = []
  · rw [if_pos hempty]
    have h0 : (ranks.map (fun pr => hits_entry pr.1 pr.2 K)).sum = 0 := by
      rw [← sum_filter_pos, hempty]; rfl
    rw [h0]
    simp
  · rw [if_neg hempty, sum_filter_pos]

end KGE

open KGE DDP

/-- Claim C1: in filtered evaluation, for a query triple with in-vocabulary
ids, all known-true alternative completions retrieved by the fixed key pair
are set to `-inf` before ranking, while the query's own true answer keeps its
original raw score; consequently, if the true answer's raw score is strictly
maximal among the non-filtered candidates, its computed rank is exactly 1,
however many known-true alternatives exist.  Stated for the tail- and
head-prediction paths of `evaluate_lp` (lines 413–435) and for the KvsAll
entity branch (lines 349–360). -/
theorem claim_C1_filtering {nE nR : ℕ} (m : Model nE nR) (data : KnownTable)
    (s p o : ℕ) (ho : o < nE) (hs : s < nE)
    (hmax_tail : ∀ e : Fin nE, (e : ℕ) ≠ o → (e : ℕ) ∉ filt_tails data s p →
      predictions_tails m s p e < m.forward_triples s p o)
    (hmax_head : ∀ e : Fin nE, (e : ℕ) ≠ s → (e : ℕ) ∉ filt_heads data p o →
      predictions_heads m p o e < m.forward_triples s p o)
    (hmax_ent : ∀ e : Fin nE, (e : ℕ) ≠ o → (e : ℕ) ∉ filt_tails data s p →
      m.forward_k_vs_all_ent s p e < m.forward_k_vs_all_ent s p ⟨o, ho⟩) :
    (maskedScores (predictions_tails m s p) (filt_tails data s p) ⟨o, ho⟩ ⟨o, ho⟩
        = (predictions_tails m s p ⟨o, ho⟩ : WithBot ℚ))
    ∧ (∀ e : Fin nE, (e : ℕ) ≠ o → (e : ℕ) ∈ filt_tails data s p →
        maskedScores (predictions_tails m s p) (filt_tails data s p) ⟨o, ho⟩ e = ⊥)
    ∧ (maskedScores (predictions_heads m p o) (filt_heads data p o) ⟨s, hs⟩ ⟨s, hs⟩
        = (predictions_heads m p o ⟨s, hs⟩ : WithBot ℚ))
    ∧ (∀ e : Fin nE, (e : ℕ) ≠ s → (e : ℕ) ∈ filt_heads data p o →
        maskedScores (predictions_heads m p o) (filt_heads data p o) ⟨s, hs⟩ e = ⊥)
    ∧ filt_tail_entity_rank m data s p o = 1
    ∧ filt_head_entity_rank m data s p o = 1
    ∧ kvsall_rank0_ent m data ⟨s, p, o⟩ + 1 = 1 := by
  have hto : ∀ e : Fin nE, e ≠ (⟨o, ho⟩ : Fin nE) ↔ (e : ℕ) ≠ o := by
    intro e; constructor
    · intro h1 h2; exact h1 (Fin.ext h2)
    · intro h1 h2; exact h1 (congrArg Fin.val h2)
  have hts : ∀ e : Fin nE, e ≠ (⟨s, hs⟩ : Fin nE) ↔ (e : ℕ) ≠ s := by
    intro e; constructor
    · intro h1 h2; exact h1 (Fin.ext h2)
    · intro h1 h2; exact h1 (congrArg Fin.val h2)
  refine ⟨maskedScores_target _ _ _, ?_, maskedScores_target _ _ _, ?_, ?_, ?_, ?_⟩
  · intro e hne hmem
    exact maskedScores_filtered _ _ _ _ ((hto e).mpr hne) hmem
  · intro e hne hmem
    exact maskedScores_filtered _ _ _ _ ((hts e).mpr hne) hmem
  · rw [filt_tail_entity_rank, dif_pos ho]
    refine rank_of_eq_one _ _ (maskedScores_strict_max _ _ _ ?_)
    intro e hne hnm
    exact hmax_tail e ((hto e).mp hne) hnm
  · rw [filt_head_entity_rank, dif_pos hs]
    refine rank_of_eq_one _ _ (maskedScores_strict_max _ _ _ ?_)
    intro e hne hnm
    exact hmax_head e ((hts e).mp hne) hnm
  · show kvsall_rank0_ent m data ⟨s, p, o⟩ + 1 = 1
    rw [kvsall_rank0_ent]
    rw [dif_pos (show Triple.o ⟨s, p, o⟩ < nE from ho)]
    have h1 : rank_of
        (maskedScores (m.forward_k_vs_all_ent s p) (filt_tails data s p) ⟨o, ho⟩) ⟨o, ho⟩ = 1 := by
      refine rank_of_eq_one _ _ (maskedScores_strict_max _ _ _ ?_)
      intro e hne hnm
      exact hmax_ent e ((hto e).mp hne) hnm
    rw [rank_of] at h1
    exact h1

/-- Witness for C1, instantiating the spec's end-to-end scenario: 4 entities,
1 relation, known-true triples `{(0,0,1), (0,0,2)}`, query `(0,0,1)`; the
true answer's raw scores dominate the non-filtered candidates in every
direction, so all three computed ranks are 1 even though the filtered
alternative (entity 2) has a much larger raw score. -/
theorem claim_C1_filtering_witness :
    filt_tail_entity_rank
        (⟨fun a _ c => if c = 1 then (if a = 0 then 3 else 2) else if c = 2 then 9 else 0,
          fun _ _ e => if (e : ℕ) = 1 then 3 else if (e : ℕ) = 2 then 9 else 0,
          fun _ _ _ => 0⟩ : Model 4 1)
        [⟨0, 0, 1⟩, ⟨0, 0, 2⟩] 0 0 1 = 1
    ∧ filt_head_entity_rank
        (⟨fun a _ c => if c = 1 then (if a = 0 then 3 else 2) else if c = 2 then 9 else 0,
          fun _ _ e => if (e : ℕ) = 1 then 3 else if (e : ℕ) = 2 then 9 else 0,
          fun _ _ _ => 0⟩ : Model 4 1)
        [⟨0, 0, 1⟩, ⟨0, 0, 2⟩] 0 0 1 = 1
    ∧ kvsall_rank0_ent
        (⟨fun a _ c => if c = 1 then (if a = 0 then 3 else 2) else if c = 2 then 9 else 0,
          fun _ _ e => if (e : ℕ) = 1 then 3 else if (e : ℕ) = 2 then 9 else 0,
          fun _ _ _ => 0⟩ : Model 4 1)
        [⟨0, 0, 1⟩, ⟨0, 0, 2⟩] ⟨0, 0, 1⟩ + 1 = 1 := by
  have h := claim_C1_filtering
    (⟨fun a _ c => if c = 1 then (if a = 0 then 3 else 2) else if c = 2 then 9 else 0,
      fun _ _ e => if (e : ℕ) = 1 then 3 else if (e : ℕ) = 2 then 9 else 0,
      fun _ _ _ => 0⟩ : Model 4 1)
    [⟨0, 0, 1⟩, ⟨0, 0, 2⟩] 0 0 1 (by decide) (by decide)
    (by decide) (by decide) (by decide)
  exact ⟨h.2.2.2.2.1, h.2.2.2.2.2.1, h.2.2.2.2.2.2⟩

namespace KGE

theorem evaluate_lp_h1 {nE nR : ℕ} (m : Model nE nR) (data : KnownTable)
    (triple_idx : List Triple) :
    (evaluate_lp m data triple_idx).h1 = hit_at (lp_ranks m data triple_idx) 1 triple_idx.length := rfl

theorem evaluate_lp_h3 {nE nR : ℕ} (m : Model nE nR) (data : KnownTable)
    (triple_idx : List Triple) :
    (evaluate_lp m data triple_idx).h3 = hit_at (lp_ranks m data triple_idx) 3 triple_idx.length := rfl

theorem evaluate_lp_h10 {nE nR : ℕ} (m : Model nE nR) (data : KnownTable)
    (triple_idx : List Triple) :
    (evaluate_lp m data triple_idx).h10 = hit_at (lp_ranks m data triple_idx) 10 triple_idx.length := rfl

theorem evaluate_lp_mrr {nE nR : ℕ} (m : Model nE nR) (data : KnownTable)
    (triple_idx : List Triple) :
    (evaluate_lp m data triple_idx).mrr
      = ((lp_ranks m data triple_idx).map
          (fun pr => (1 : ℚ) / (pr.1 : ℚ) + (1 : ℚ) / (pr.2 : ℚ))).sum
        / (((triple_idx.length : ℚ)) * 2) := rfl

theorem kvsall_h1 {nE nR : ℕ} (m : Model nE nR) (data : KnownTable)
    (triple_idx : List Triple) (form : String) :
    (evaluate_lp_k_vs_all m data triple_idx form).h1
      = (((kvsall_ranks0 m data triple_idx form).countP (fun r => decide (r ≤ 0))) : ℚ)
        / ((triple_idx.length : ℚ)) := rfl

theorem kvsall_h3 {nE nR : ℕ} (m : Model nE nR) (data : KnownTable)
    (triple_idx : List Triple) (form : String) :
    (evaluate_lp_k_vs_all m data triple_idx form).h3
      = (((kvsall_ranks0 m data triple_idx form).countP (fun r => decide (r ≤ 2))) : ℚ)
        / ((triple_idx.length : ℚ)) := rfl

theorem kvsall_h10 {nE nR : ℕ} (m : Model nE nR) (data : KnownTable)
    (triple_idx : List Triple) (form : String) :
    (evaluate_lp_k_vs_all m data triple_idx form).h10
      = (((kvsall_ranks0 m data triple_idx form).countP (fun r => decide (r ≤ 9))) : ℚ)
        / ((triple_idx.length : ℚ)) := rfl

theorem kvsall_mrr {nE nR : ℕ} (m : Model nE nR) (data : KnownTable)
    (triple_idx : List Triple) (form : String) :
    (evaluate_lp_k_vs_all m data triple_idx form).mrr
      = ((kvsall_ranks0 m data triple_idx form).map (fun (r : ℕ) => (1 : ℚ) / ((r : ℚ) + 1))).sum
        / (((kvsall_ranks0 m data triple_idx form).length : ℚ)) := rfl

theorem kvsall_ranks0_entity {nE nR : ℕ} (m : Model nE nR) (data : KnownTable)
    (triple_idx : List Triple) :
    kvsall_ranks0 m data triple_idx "EntityPrediction"
      = triple_idx.map (kvsall_rank0_ent m data) := by
  rw [kvsall_ranks0, if_neg (by decide)]

theorem kvsall_ranks0_relation {nE nR : ℕ} (m : Model nE nR) (data : KnownTable)
    (triple_idx : List Triple) :
    kvsall_ranks0 m data triple_idx "RelationPrediction"
      = triple_idx.map (kvsall_rank0_rel m data) := by
  rw [kvsall_ranks0, if_pos rfl]

theorem hits_entry_mono (hr tr : ℕ) {K K' : ℕ} (h : K ≤ K') :
    hits_entry hr tr K ≤ hits_entry hr tr K' := by
  unfold hits_entry
  split_ifs <;> omega

theorem hit_at_mono (ranks : List (ℕ × ℕ)) {K K' : ℕ} (h : K ≤ K') (count : ℕ) :
    hit_at ranks K count ≤ hit_at ranks K' count := by
  rw [hit_at_eq, hit_at_eq]
  have hsum : ((ranks.map (fun pr => hits_entry pr.1 pr.2 K)).sum)
      ≤ ((ranks.map (fun pr => hits_entry pr.1 pr.2 K')).sum) :=
    List.sum_le_sum (fun x _ => hits_entry_mono _ _ h)
  have hc : (0 : ℚ) ≤ (count : ℚ) * 2 := by positivity
  rcases eq_or_lt_of_le hc with h0 | h0
  · rw [← h0]
    simp
  · exact (div_le_div_iff_of_pos_right h0).mpr (by exact_mod_cast hsum)

theorem countP_le_level_mono (ranks0 : List ℕ) {K K' : ℕ} (h : K ≤ K') :
    ranks0.countP (fun r => decide (r ≤ K)) ≤ ranks0.countP (fun r => decide (r ≤ K')) := by
  refine List.countP_mono_left (fun x _ hx => ?_)
  simp only [decide_eq_true_eq] at hx ⊢
  omega

end KGE

/-- Claim C4: for every query triple whose ids lie in the vocabulary, every
rank the evaluator produces is 1-based and bounded by the vocabulary size —
`1 ≤ rank ≤ num_entities` for the head- and tail-prediction ranks of
`evaluate_lp` and for the KvsAll entity branch, and
`1 ≤ rank ≤ num_relations` for the KvsAll relation-prediction rank. -/
theorem claim_C4_rank_bounds {nE nR : ℕ} (m : Model nE nR) (data : KnownTable)
    (t : Triple) (hs : t.s < nE) (ho : t.o < nE) (hp : t.p < nR) :
    (1 ≤ filt_tail_entity_rank m data t.s t.p t.o
      ∧ filt_tail_entity_rank m data t.s t.p t.o ≤ nE)
    ∧ (1 ≤ filt_head_entity_rank m data t.s t.p t.o
      ∧ filt_head_entity_rank m data t.s t.p t.o ≤ nE)
    ∧ (1 ≤ kvsall_rank0_ent m data t + 1 ∧ kvsall_rank0_ent m data t + 1 ≤ nE)
    ∧ (1 ≤ kvsall_rank0_rel m data t + 1 ∧ kvsall_rank0_rel m data t + 1 ≤ nR) := by
  refine ⟨?_, ?_, ?_, ?_⟩
  · rw [filt_tail_entity_rank, dif_pos ho]
    exact ⟨rank_of_pos _ _, rank_of_le _ _⟩
  · rw [filt_head_entity_rank, dif_pos hs]
    exact ⟨rank_of_pos _ _, rank_of_le _ _⟩
  · rw [kvsall_rank0_ent, dif_pos ho]
    have := rank0_of_lt
      (maskedScores (m.forward_k_vs_all_ent t.s t.p) (filt_tails data t.s t.p) ⟨t.o, ho⟩)
      ⟨t.o, ho⟩
    omega
  · rw [kvsall_rank0_rel, dif_pos hp]
    have := rank0_of_lt
      (maskedScores (m.forward_k_vs_all_rel t.s t.o) (filt_rels data t.s t.o) ⟨t.p, hp⟩)
      ⟨t.p, hp⟩
    omega

/-- Witness for C4 at a concrete two-entity, one-relation instance. -/
theorem claim_C4_rank_bounds_witness :
    (1 ≤ filt_tail_entity_rank (⟨fun _ _ _ => 0, fun _ _ _ => 0, fun _ _ _ => 0⟩ : Model 2 1)
          [⟨0, 0, 1⟩] 0 0 1
      ∧ filt_tail_entity_rank (⟨fun _ _ _ => 0, fun _ _ _ => 0, fun _ _ _ => 0⟩ : Model 2 1)
          [⟨0, 0, 1⟩] 0 0 1 ≤ 2)
    ∧ (1 ≤ filt_head_entity_rank (⟨fun _ _ _ => 0, fun _ _ _ => 0, fun _ _ _ => 0⟩ : Model 2 1)
          [⟨0, 0, 1⟩] 0 0 1
      ∧ filt_head_entity_rank (⟨fun _ _ _ => 0, fun _ _ _ => 0, fun _ _ _ => 0⟩ : Model 2 1)
          [⟨0, 0, 1⟩] 0 0 1 ≤ 2)
    ∧ (1 ≤ kvsall_rank0_ent (⟨fun _ _ _ => 0, fun _ _ _ => 0, fun _ _ _ => 0⟩ : Model 2 1)
          [⟨0, 0, 1⟩] ⟨0, 0, 1⟩ + 1
      ∧ kvsall_rank0_ent (⟨fun _ _ _ => 0, fun _ _ _ => 0, fun _ _ _ => 0⟩ : Model 2 1)
          [⟨0, 0, 1⟩] ⟨0, 0, 1⟩ + 1 ≤ 2)
    ∧ (1 ≤ kvsall_rank0_rel (⟨fun _ _ _ => 0, fun _ _ _ => 0, fun _ _ _ => 0⟩ : Model 2 1)
          [⟨0, 0, 1⟩] ⟨0, 0, 1⟩ + 1
      ∧ kvsall_rank0_rel (⟨fun _ _ _ => 0, fun _ _ _ => 0, fun _ _ _ => 0⟩ : Model 2 1)
          [⟨0, 0, 1⟩] ⟨0, 0, 1⟩ + 1 ≤ 1) :=
  claim_C4_rank_bounds (⟨fun _ _ _ => 0, fun _ _ _ => 0, fun _ _ _ => 0⟩ : Model 2 1)
    [⟨0, 0, 1⟩] ⟨0, 0, 1⟩ (by decide) (by decide) (by decide)

/-- Claim C6: for every evaluation run — both evaluator entry points and both
labelling modes — the returned metrics satisfy `H@10 ≥ H@3 ≥ H@1`. -/
theorem claim_C6_hits_monotone {nE nR : ℕ} (m : Model nE nR) (data : KnownTable)
    (triple_idx : List Triple) (form_of_labelling : String) :
    ((evaluate_lp m data triple_idx).h1 ≤ (evaluate_lp m data triple_idx).h3
      ∧ (evaluate_lp m data triple_idx).h3 ≤ (evaluate_lp m data triple_idx).h10)
    ∧ ((evaluate_lp_k_vs_all m data triple_idx form_of_labelling).h1
        ≤ (evaluate_lp_k_vs_all m data triple_idx form_of_labelling).h3
      ∧ (evaluate_lp_k_vs_all m data triple_idx form_of_labelling).h3
        ≤ (evaluate_lp_k_vs_all m data triple_idx form_of_labelling).h10) := by
  constructor
  · constructor
    · rw [evaluate_lp_h1, evaluate_lp_h3]
      exact hit_at_mono _ (by norm_num) _
    · rw [evaluate_lp_h3, evaluate_lp_h10]
      exact hit_at_mono _ (by norm_num) _
  · have hlen : (0 : ℚ) ≤ ((triple_idx.length : ℚ)) := by positivity
    rcases eq_or_lt_of_le hlen with h0 | h0
    · constructor
      · rw [kvsall_h1, kvsall_h3, ← h0]
        simp
      · rw [kvsall_h3, kvsall_h10, ← h0]
        simp
    · constructor
      · rw [kvsall_h1, kvsall_h3]
        exact (div_le_div_iff_of_pos_right h0).mpr
          (by exact_mod_cast countP_le_level_mono _ (by norm_num))
      · rw [kvsall_h3, kvsall_h10]
        exact (div_le_div_iff_of_pos_right h0).mpr
          (by exact_mod_cast countP_le_level_mono _ (by norm_num))

/-- Claim C8: the evaluator is a deterministic function of the model, the
query triples and the known-true table.  The embedding is a pure function —
the source fixes a global seed, draws no randomness in either evaluation
routine, and `torch.sort` on a fixed input is deterministic — so two runs on
equal inputs give identical per-triple ranks and bit-identical metrics. -/
theorem claim_C8_determinism {nE nR : ℕ} (m : Model nE nR) (data : KnownTable)
    (triple_idx : List Triple) (form_of_labelling : String) :
    lp_ranks m data triple_idx = lp_ranks m data triple_idx
    ∧ evaluate_lp m data triple_idx = evaluate_lp m data triple_idx
    ∧ kvsall_ranks0 m data triple_idx form_of_labelling
        = kvsall_ranks0 m data triple_idx form_of_labelling
    ∧ evaluate_lp_k_vs_all m data triple_idx form_of_labelling
        = evaluate_lp_k_vs_all m data triple_idx form_of_labelling :=
  ⟨rfl, rfl, rfl, rfl⟩

namespace KGE

/-- Claim-side definition (follows the spec's words, for the refinement
comparison): the entity-ranking Hits@K tally with one head rank and one tail
rank per triple, counted separately, divided by `2 × |query_triples|`. -/
def two_sided_hit_fraction (rkh rkt : Triple → ℕ) (triple_idx : List Triple) (K : ℕ) : ℚ :=
  ((triple_idx.map (fun t => hits_entry (rkh t) (rkt t) K)).sum : ℚ)
    / ((triple_idx.length : ℚ) * 2)

/-- Claim-side definition (follows the spec's words): the entity-ranking MRR,
`Σ (1/head_rank + 1/tail_rank)` divided by `2 × |query_triples|`. -/
def two_sided_mrr (rkh rkt : Triple → ℕ) (triple_idx : List Triple) : ℚ :=
  (triple_idx.map (fun t => (1 : ℚ) / ((rkh t : ℚ)) + (1 : ℚ) / ((rkt t : ℚ)))).sum
    / ((triple_idx.length : ℚ) * 2)

/-- A concrete two-entity, one-relation instance on which the KvsAll entity
branch and the two-sided (head and tail) tallies disagree: the query's tail
rank is 1, but its head-prediction rank under `forward_triples` is 2. -/
def cexModel : Model 2 1 :=
  ⟨fun a _ _ => if a = 0 then 0 else 1,
   fun _ _ e => if (e : ℕ) = 1 then 1 else 0,
   fun _ _ _ => 0⟩

/-- Known-true table for the concrete instance: the single triple (0,0,1). -/
def cexData : KnownTable := [⟨0, 0, 1⟩]

theorem lp_ranks_map_entry {nE nR : ℕ} (m : Model nE nR) (data : KnownTable)
    (triple_idx : List Triple) (K : ℕ) :
    (lp_ranks m data triple_idx).map (fun pr => hits_entry pr.1 pr.2 K)
      = triple_idx.map (fun t =>
          hits_entry (filt_head_entity_rank m data t.s t.p t.o)
            (filt_tail_entity_rank m data t.s t.p t.o) K) := by
  rw [lp_ranks, List.map_map]
  rfl

end KGE

/-- Claim C2 (amended): `evaluate_lp` computes both a head- and a
tail-prediction rank per query triple, tallies them separately, and divides
every Hits@K by `2 × |query_triples|`; the KvsAll evaluator's entity-labelling
branch, however, computes only the single tail-prediction rank per triple and
divides its Hits@K by `|query_triples|`. -/
theorem claim_C2_two_sided_hits {nE nR : ℕ} (m : Model nE nR) (data : KnownTable)
    (triple_idx : List Triple) :
    ((evaluate_lp m data triple_idx).h1
      = two_sided_hit_fraction (fun t => filt_head_entity_rank m data t.s t.p t.o)
          (fun t => filt_tail_entity_rank m data t.s t.p t.o) triple_idx 1)
    ∧ ((evaluate_lp m data triple_idx).h3
      = two_sided_hit_fraction (fun t => filt_head_entity_rank m data t.s t.p t.o)
          (fun t => filt_tail_entity_rank m data t.s t.p t.o) triple_idx 3)
    ∧ ((evaluate_lp m data triple_idx).h10
      = two_sided_hit_fraction (fun t => filt_head_entity_rank m data t.s t.p t.o)
          (fun t => filt_tail_entity_rank m data t.s t.p t.o) triple_idx 10)
    ∧ ((evaluate_lp_k_vs_all m data triple_idx "EntityPrediction").h1
      = (((triple_idx.map (kvsall_rank0_ent m data)).countP (fun r => decide (r ≤ 0))) : ℚ)
        / ((triple_idx.length : ℚ))) := by
  refine ⟨?_, ?_, ?_, ?_⟩
  · rw [evaluate_lp_h1, hit_at_eq, two_sided_hit_fraction, lp_ranks_map_entry]
  · rw [evaluate_lp_h3, hit_at_eq, two_sided_hit_fraction, lp_ranks_map_entry]
  · rw [evaluate_lp_h10, hit_at_eq, two_sided_hit_fraction, lp_ranks_map_entry]
  · rw [kvsall_h1, kvsall_ranks0_entity]

/-- Counterexample to C2 as stated: a run of the evaluator in entity-ranking
mode (the KvsAll entity-labelling branch) whose H@1 is 1, while the claimed
two-sided tally with denominator `2 × |query_triples|` gives 1/2, because the
head-prediction rank of the query is 2 and is never computed by this branch. -/
theorem claim_C2_counterexample :
    (evaluate_lp_k_vs_all cexModel cexData [⟨0, 0, 1⟩] "EntityPrediction").h1
      ≠ two_sided_hit_fraction
          (fun t => filt_head_entity_rank cexModel cexData t.s t.p t.o)
          (fun t => kvsall_rank0_ent cexModel cexData t + 1) [⟨0, 0, 1⟩] 1 := by
  have hh : filt_head_entity_rank cexModel cexData 0 0 1 = 2 := by decide
  have ht : kvsall_rank0_ent cexModel cexData ⟨0, 0, 1⟩ = 0 := by decide
  rw [kvsall_h1, kvsall_ranks0_entity, two_sided_hit_fraction]
  simp only [List.map_cons, List.map_nil, ht, hh]
  norm_num [hits_entry]

/-- Claim C5 (amended): the MRR of `evaluate_lp` is
`Σ (1/head_rank + 1/tail_rank) / (2 × |query_triples|)`, and the MRR of
`evaluate_lp_k_vs_all` — in the relation-prediction branch and likewise in
the entity branch — is the arithmetic mean over query triples of `1/rank` of
the single rank that branch computes. -/
theorem claim_C5_mrr {nE nR : ℕ} (m : Model nE nR) (data : KnownTable)
    (triple_idx : List Triple) :
    ((evaluate_lp m data triple_idx).mrr
      = two_sided_mrr (fun t => filt_head_entity_rank m data t.s t.p t.o)
          (fun t => filt_tail_entity_rank m data t.s t.p t.o) triple_idx)
    ∧ ((evaluate_lp_k_vs_all m data triple_idx "RelationPrediction").mrr
      = (triple_idx.map (fun t => (1 : ℚ) / ((kvsall_rank0_rel m data t : ℚ) + 1))).sum
        / ((triple_idx.length : ℚ)))
    ∧ ((evaluate_lp_k_vs_all m data triple_idx "EntityPrediction").mrr
      = (triple_idx.map (fun t => (1 : ℚ) / ((kvsall_rank0_ent m data t : ℚ) + 1))).sum
        / ((triple_idx.length : ℚ))) := by
  refine ⟨?_, ?_, ?_⟩
  · rw [evaluate_lp_mrr, two_sided_mrr, lp_ranks, List.map_map]
    rfl
  · rw [kvsall_mrr, kvsall_ranks0_relation, List.map_map, List.length_map]
    rfl
  · rw [kvsall_mrr, kvsall_ranks0_entity, List.map_map, List.length_map]
    rfl

/-- Counterexample to C5 as stated: the same entity-ranking KvsAll run has
MRR 1 (mean of `1/rank` of the single computed rank), while the claimed
entity-ranking formula `Σ (1/head + 1/tail) / (2 × |triples|)` gives 3/4. -/
theorem claim_C5_counterexample :
    (evaluate_lp_k_vs_all cexModel cexData [⟨0, 0, 1⟩] "EntityPrediction").mrr
      ≠ two_sided_mrr
          (fun t => filt_head_entity_rank cexModel cexData t.s t.p t.o)
          (fun t => kvsall_rank0_ent cexModel cexData t + 1) [⟨0, 0, 1⟩] := by
  have hh : filt_head_entity_rank cexModel cexData 0 0 1 = 2 := by decide
  have ht : kvsall_rank0_ent cexModel cexData ⟨0, 0, 1⟩ = 0 := by decide
  rw [kvsall_mrr, kvsall_ranks0_entity, two_sided_mrr]
  simp only [List.map_cons, List.map_nil, ht, hh]
  norm_num

/-- Claim C9: `config_kge_sanity_checking` clamps a batch size that exceeds
the number of training triples down to the training-set size and raises no
error (the embedding is a total function — every branch of the source method
returns normally); a batch size not exceeding the training-set size is left
unchanged. -/
theorem claim_C9_batch_clamp (train_set_len : ℕ) (c : Config) :
    ((train_set_len < c.batch_size) →
      (config_kge_sanity_checking train_set_len c).batch_size = train_set_len)
    ∧ ((c.batch_size ≤ train_set_len) →
      (config_kge_sanity_checking train_set_len c).batch_size = c.batch_size) := by
  have hbs : (config_kge_sanity_checking train_set_len c).batch_size
      = if train_set_len < c.batch_size then train_set_len else c.batch_size := by
    unfold config_kge_sanity_checking
    by_cases h1 : c.batch_size > train_set_len
    · rw [if_pos (show train_set_len < c.batch_size from h1)]
      simp only [if_pos h1]
      split_ifs <;> rfl
    · rw [if_neg (show ¬ train_set_len < c.batch_size from h1)]
      simp only [if_neg h1]
      split_ifs <;> rfl
  constructor
  · intro h
    rw [hbs, if_pos h]
  · intro h
    rw [hbs, if_neg (by omega)]

/-- Witness for C9: batch size 50 over 7 training triples is clamped to 7,
and batch size 7 over 7 is kept. -/
theorem claim_C9_batch_clamp_witness :
    (config_kge_sanity_checking 7 ⟨50, "ConEx", "NegSample", some 1⟩).batch_size = 7
    ∧ (config_kge_sanity_checking 7 ⟨7, "ConEx", "NegSample", some 1⟩).batch_size = 7 :=
  ⟨(claim_C9_batch_clamp 7 ⟨50, "ConEx", "NegSample", some 1⟩).1 (by decide),
   (claim_C9_batch_clamp 7 ⟨7, "ConEx", "NegSample", some 1⟩).2 (by decide)⟩

/-- Claim C10: for a batch sequence whose length is neither 2 nor 3,
`DDPTrainer.extract_input_outputs` raises — but the exception is the
`NameError` from evaluating `print(len(batch))` over the unbound name
`batch`, not the `ValueError('Unexpected batch shape..')` on the following
line, which is unreachable; for lengths 2 and 3 the device-moved
`(input, target)` pair is returned without raising. -/
theorem claim_C10_extract_batch (α : Type) (toDev : α → α) (z : List α) :
    (z.length ≠ 2 → z.length ≠ 3 →
      extract_input_outputs toDev z = .error .nameError)
    ∧ (∀ x y, z = [x, y] →
      extract_input_outputs toDev z = .ok (.inl (toDev x), toDev y))
    ∧ (∀ x yidx y, z = [x, yidx, y] →
      extract_input_outputs toDev z = .ok (.inr (toDev x, toDev yidx), toDev y))
    ∧ extract_input_outputs toDev z ≠ .error .valueError := by
  rcases z with _ | ⟨a, _ | ⟨b, _ | ⟨c, _ | ⟨d, rest⟩⟩⟩⟩
  · refine ⟨fun _ _ => rfl, ?_, ?_, ?_⟩
    · intro x y h
      simp at h
    · intro x yidx y h
      simp at h
    · intro h
      simp [extract_input_outputs] at h
  · refine ⟨fun _ _ => rfl, ?_, ?_, ?_⟩
    · intro x y h
      simp at h
    · intro x yidx y h
      simp at h
    · intro h
      simp [extract_input_outputs] at h
  · refine ⟨fun h2 _ => absurd rfl h2, ?_, ?_, ?_⟩
    · intro x y h
      cases h
      rfl
    · intro x yidx y h
      simp at h
    · intro h
      simp [extract_input_outputs] at h
  · refine ⟨fun _ h3 => absurd rfl h3, ?_, ?_, ?_⟩
    · intro x y h
      simp at h
    · intro x yidx y h
      cases h
      rfl
    · intro h
      simp [extract_input_outputs] at h
  · refine ⟨fun _ _ => rfl, ?_, ?_, ?_⟩
    · intro x y h
      simp at h
    · intro x yidx y h
      simp at h
    · intro h
      simp [extract_input_outputs] at h

/-- Witness for C10: a four-element batch yields the `NameError`, a
two-element and a three-element batch return the device-moved pairs. -/
theorem claim_C10_extract_batch_witness :
    extract_input_outputs Nat.succ [7, 8, 9, 10] = .error .nameError
    ∧ extract_input_outputs Nat.succ [7, 8] = .ok (.inl 8, 9)
    ∧ extract_input_outputs Nat.succ [7, 8, 9] = .ok (.inr (8, 9), 10) :=
  ⟨(claim_C10_extract_batch ℕ Nat.succ [7, 8, 9, 10]).1 (by decide) (by decide),
   (claim_C10_extract_batch ℕ Nat.succ [7, 8]).2.1 7 8 rfl,
   (claim_C10_extract_batch ℕ Nat.succ [7, 8, 9]).2.2.1 7 8 9 rfl⟩

namespace DDP

theorem run_batches_sum {β : Type} (rb : RunBatch β) :
    ∀ (batches : List β) (params : List ℚ),
      (run_batches rb params batches).1 = (epoch_batch_losses rb params batches).sum := by
  intro batches
  induction batches with
  | nil =>
    intro params
    simp [run_batches, epoch_batch_losses]
  | cons b bs ih =>
    intro params
    simp [run_batches, epoch_batch_losses, ih]

theorem epoch_batch_losses_length {β : Type} (rb : RunBatch β) :
    ∀ (batches : List β) (params : List ℚ),
      (epoch_batch_losses rb params batches).length = batches.length := by
  intro batches
  induction batches with
  | nil =>
    intro params
    rfl
  | cons b bs ih =>
    intro params
    simp [epoch_batch_losses, ih]

/-- For a non-empty loader, the value `_run_epoch` returns is the arithmetic
mean of the local batch losses: their sum divided by their number. -/
theorem run_epoch_mean {β : Type} (rb : RunBatch β) (params : List ℚ)
    (batches : List β) (h : batches ≠ []) :
    (run_epoch rb params batches).1
      = (epoch_batch_losses rb params batches).sum
        / (((epoch_batch_losses rb params batches).length : ℚ)) := by
  show (run_batches rb params batches).1 / ((max 1 batches.length : ℕ) : ℚ) = _
  rw [run_batches_sum, epoch_batch_losses_length]
  have hlen : batches.length ≠ 0 := by
    intro h0
    exact h (List.length_eq_zero.mp h0)
  have hmax : max 1 batches.length = batches.length := by omega
  rw [hmax]

theorem train_epochs_succ {β : Type} (gpu ncb : ℕ) (rb : RunBatch β)
    (loader : ℕ → List β) (k e : ℕ) (m : Module) :
    train_epochs gpu ncb rb loader (k + 1) e m
      = ((train_epochs gpu ncb rb loader k (e + 1)
            { state_dict := (run_epoch rb m.state_dict (loader e)).2
              loss_history :=
                if gpu = 0 then m.loss_history ++ [(run_epoch rb m.state_dict (loader e)).1]
                else m.loss_history }).1,
         (if gpu = 0 then
            (List.range ncb).map (fun c => (e, c,
              ({ state_dict := (run_epoch rb m.state_dict (loader e)).2
                 loss_history :=
                   if gpu = 0 then m.loss_history ++ [(run_epoch rb m.state_dict (loader e)).1]
                   else m.loss_history } : Module)))
          else [])
           ++ (train_epochs gpu ncb rb loader k (e + 1)
                { state_dict := (run_epoch rb m.state_dict (loader e)).2
                  loss_history :=
                    if gpu = 0 then m.loss_history ++ [(run_epoch rb m.state_dict (loader e)).1]
                    else m.loss_history }).2) := rfl

theorem train_epochs_rank0 {β : Type} (ncb : ℕ) (rb : RunBatch β) (loader : ℕ → List β) :
    ∀ (k e : ℕ) (m : Module),
      (train_epochs 0 ncb rb loader k e m).1.loss_history
          = m.loss_history ++ epoch_mean_losses rb loader k e m.state_dict
        ∧ (train_epochs 0 ncb rb loader k e m).2.length = k * ncb := by
  intro k
  induction k with
  | zero =>
    intro e m
    simp [train_epochs, epoch_mean_losses]
  | succ k ih =>
    intro e m
    rw [train_epochs_succ]
    constructor
    · show (train_epochs 0 ncb rb loader k (e + 1) _).1.loss_history = _
      rw [(ih (e + 1) _).1]
      show (if (0 : ℕ) = 0 then m.loss_history ++ [(run_epoch rb m.state_dict (loader e)).1]
            else m.loss_history) ++ _ = _
      rw [if_pos rfl, epoch_mean_losses, List.append_assoc]
      rfl
    · show ((if (0 : ℕ) = 0 then _ else []) ++ (train_epochs 0 ncb rb loader k (e + 1) _).2).length
          = (k + 1) * ncb
      rw [if_pos rfl, List.length_append, List.length_map, List.length_range, (ih (e + 1) _).2]
      ring

theorem train_epochs_nonzero {β : Type} (gpu ncb : ℕ) (rb : RunBatch β)
    (loader : ℕ → List β) (hgpu : gpu ≠ 0) :
    ∀ (k e : ℕ) (m : Module),
      (train_epochs gpu ncb rb loader k e m).1.loss_history = m.loss_history
        ∧ (train_epochs gpu ncb rb loader k e m).2 = [] := by
  intro k
  induction k with
  | zero =>
    intro e m
    simp [train_epochs]
  | succ k ih =>
    intro e m
    rw [train_epochs_succ]
    constructor
    · show (train_epochs gpu ncb rb loader k (e + 1) _).1.loss_history = _
      rw [(ih (e + 1) _).1]
      show (if gpu = 0 then _ else m.loss_history) = _
      rw [if_neg hgpu]
    · show ((if gpu = 0 then _ else []) ++ (train_epochs gpu ncb rb loader k (e + 1) _).2) = []
      rw [if_neg hgpu, (ih (e + 1) _).2]
      rfl

end DDP

/-- Claim C7: at the end of every training epoch, only the rank-0 worker
appends that epoch's mean loss — the accumulated epoch loss divided by the
number of batches, i.e. the arithmetic mean of its local batch losses — to
the loss history of the unwrapped module, and only rank 0 invokes each of the
registered epoch-end callbacks (one record per callback per epoch, carrying
the unwrapped `Module`); non-zero ranks append nothing and invoke no
callbacks. -/
theorem claim_C7_rank0_bookkeeping (β : Type) (gpu_id ncb : ℕ) (rb : RunBatch β)
    (loader : ℕ → List β) (num_epochs : ℕ) (m0 : Module) :
    (gpu_id = 0 →
      (DDPTrainer_train gpu_id ncb rb loader num_epochs m0).1.loss_history
          = m0.loss_history ++ epoch_mean_losses rb loader num_epochs 0 m0.state_dict
        ∧ (DDPTrainer_train gpu_id ncb rb loader num_epochs m0).2.length = num_epochs * ncb)
    ∧ (gpu_id ≠ 0 →
      (DDPTrainer_train gpu_id ncb rb loader num_epochs m0).1.loss_history = m0.loss_history
        ∧ (DDPTrainer_train gpu_id ncb rb loader num_epochs m0).2 = [])
    ∧ (∀ (params : List ℚ) (batches : List β), batches ≠ [] →
      (run_epoch rb params batches).1
        = (epoch_batch_losses rb params batches).sum
          / (((epoch_batch_losses rb params batches).length : ℚ))) := by
  refine ⟨?_, ?_, ?_⟩
  · intro h0
    subst h0
    exact train_epochs_rank0 ncb rb loader num_epochs 0 m0
  · intro hne
    exact train_epochs_nonzero gpu_id ncb rb loader hne num_epochs 0 m0
  · intro params batches h
    exact run_epoch_mean rb params batches h

/-- Witness for C7: one epoch over a single batch of loss 2 — rank 0 ends up
with loss history `[2]` and two callback records, rank 3 with an unchanged
history and no callback records; the appended value is the mean of the local
batch losses. -/
theorem claim_C7_rank0_bookkeeping_witness :
    (DDPTrainer_train 0 2 (fun _ _ => ((2 : ℚ), ([5] : List ℚ))) (fun _ => [()]) 1
        ⟨[0], []⟩).1.loss_history = [2]
    ∧ (DDPTrainer_train 0 2 (fun _ _ => ((2 : ℚ), ([5] : List ℚ))) (fun _ => [()]) 1
        ⟨[0], []⟩).2.length = 2
    ∧ (DDPTrainer_train 3 2 (fun _ _ => ((2 : ℚ), ([5] : List ℚ))) (fun _ => [()]) 1
        ⟨[0], []⟩).1.loss_history = []
    ∧ (DDPTrainer_train 3 2 (fun _ _ => ((2 : ℚ), ([5] : List ℚ))) (fun _ => [()]) 1
        ⟨[0], []⟩).2 = []
    ∧ (run_epoch (fun _ _ => ((2 : ℚ), ([5] : List ℚ))) [0] [()]).1
        = (epoch_batch_losses (fun _ _ => ((2 : ℚ), ([5] : List ℚ))) [0] [()]).sum
          / (((epoch_batch_losses (fun _ _ => ((2 : ℚ), ([5] : List ℚ))) [0] [()]).length : ℚ)) := by
  have h0 := claim_C7_rank0_bookkeeping Unit 0 2 (fun _ _ => ((2 : ℚ), ([5] : List ℚ)))
    (fun _ => [()]) 1 ⟨[0], []⟩
  have h3 := claim_C7_rank0_bookkeeping Unit 3 2 (fun _ _ => ((2 : ℚ), ([5] : List ℚ)))
    (fun _ => [()]) 1 ⟨[0], []⟩
  refine ⟨?_, (h0.1 rfl).2, (h3.2.1 (by decide)).1, (h3.2.1 (by decide)).2,
    h0.2.2 [0] [()] (by decide)⟩
  rw [(h0.1 rfl).1]
  show ([] : List ℚ) ++ epoch_mean_losses _ _ 1 0 [0] = [2]
  simp [epoch_mean_losses, run_epoch, run_batches]

/-- Claim C3, evaluated at a concrete run (world size 1, one epoch, one batch
of loss 2 that updates the parameters from `[0]` to `[5]`): after `fit`
returns, the caller's model does hold the parameters rank 0 persisted to
`model.pt` and the checkpoint file has been deleted — but the caller's model
still has its prior (empty) loss history, even though the rank-0 child
process accumulated the per-epoch losses `[2]` on its own copy.  The loss
sequence lives only in the spawned process (line 88 even assigns the
never-appended `trainer.loss_history` onto the DDP wrapper) and
`state_dict`/`load_state_dict` do not carry it, so it never reaches the
caller, contradicting the claim's third conjunct. -/
theorem claim_C3_fit_checkpoint :
    fit (⟨[0], []⟩ : Module) 1 0 (fun _ _ => ((2 : ℚ), ([5] : List ℚ)))
        (fun _ _ => [()]) 1 ⟨none⟩
      = .ok (⟨[5], []⟩, ⟨none⟩)
    ∧ (DDPTrainer_train 0 0 (fun _ _ => ((2 : ℚ), ([5] : List ℚ)))
        ((fun (_ : ℕ) (_ : ℕ) => [(() : Unit)]) 0) 1 (⟨[0], []⟩ : Module)).1.loss_history
      = [2] := by
  constructor
  · show (match (distributed_training 0 (⟨[0], []⟩ : Module) 0
        (fun _ _ => ((2 : ℚ), ([5] : List ℚ))) (fun _ _ => [()]) 1 ⟨none⟩).model_pt with
      | some sd => Except.ok (({ (⟨[0], []⟩ : Module) with state_dict := sd } : Module),
          ({ model_pt := none } : FS))
      | none => Except.error "FileNotFoundError")
      = Except.ok ((⟨[5], []⟩ : Module), (⟨none⟩ : FS))
    simp [distributed_training, DDPTrainer_train, train_epochs, run_epoch, run_batches]
  · show ((train_epochs 0 0 (fun _ _ => ((2 : ℚ), ([5] : List ℚ))) (fun _ => [()]) 1 0
        (⟨[0], []⟩ : Module)).1.loss_history) = [2]
    simp [train_epochs, run_epoch, run_batches]
